import Mathlib

/-!
Shallow embedding of the asset-handoffer handoff pipeline
(src/asset_handoffer: parsers.py, core/path_generator.py, core/git_repo.py,
core/config.py, core/processor.py), with theorems checking the
natural-language specification against it.

Python strings are Lean String, pathlib paths are lists of components,
Python exceptions are an inductive error type carried in Except, and the
outcomes of external effects (subprocess git calls, directory existence)
are supplied by an explicit environment record.
-/

namespace AssetHandoffer

/-- Python exception classes relevant to the pipeline
(exceptions.py plus builtins raised by the code paths modelled here). -/
inductive PyErr
  | parseError
  | configError
  | gitError
  | processError
  | keyError
  | valueError
deriving DecidableEq, Repr

/-- Boolean ok-test on Except results. -/
def exceptIsOk {α : Type} (e : Except PyErr α) : Bool :=
  match e with
  | .ok _ => true
  | .error _ => false

/-! ## Regular expressions (the fragment of Python re used by the parser)

parsers.py compiles a configured pattern with re.compile and matches
filenames with Pattern.match.  We embed patterns as an abstract syntax of
regular expressions with named capture groups (literals, sequencing,
alternation, the empty regex; an optional piece X? is alt X eps).  A
pattern string that re.compile rejects is represented as Option.none at
the FilenameParser construction boundary. -/

inductive Regex
  | eps
  | lit (c : Char)
  | seq (a b : Regex)
  | alt (a b : Regex)
  | group (name : String) (r : Regex)
deriving DecidableEq, Repr

/-- Names of the named capture groups of a pattern
(Python Pattern.groupindex keys, for named groups). -/
def Regex.groupNames : Regex → List String
  | .eps => []
  | .lit _ => []
  | .seq a b => a.groupNames ++ b.groupNames
  | .alt a b => a.groupNames ++ b.groupNames
  | .group n r => n :: r.groupNames

/-- Record a capture for a named group; the most recent capture is found
first by lookup, as in Python where a group holds its last capture. -/
def setCap (caps : List (String × String)) (n : String) (v : String) :
    List (String × String) :=
  (n, v) :: caps

/-- All runs of the backtracking matcher, in Python backtracking order
(alternation tries the left branch first, sequencing backtracks), each run
giving the unconsumed suffix and the captures made. -/
def mruns : Regex → List Char → List (String × String) →
    List (List Char × List (String × String))
  | .eps, s, caps => [(s, caps)]
  | .lit _, [], _ => []
  | .lit c, c2 :: rest, caps => if c = c2 then [(rest, caps)] else []
  | .seq a b, s, caps => (mruns a s caps).flatMap (fun p => mruns b p.1 p.2)
  | .alt a b, s, caps => mruns a s caps ++ mruns b s caps
  | .group n r, s, caps =>
      (mruns r s caps).map
        (fun p => (p.1, setCap p.2 n (String.mk (s.take (s.length - p.1.length)))))

/-- Python Match.groupdict: every named group of the pattern is a key;
groups that did not participate in the match map to None. -/
def pyGroupdict (r : Regex) (caps : List (String × String)) :
    List (String × Option String) :=
  r.groupNames.dedup.map (fun n => (n, caps.lookup n))

/-- Python Pattern.match: anchored at the start of the string only, the
first (leftmost, backtracking-order) run wins; returns the groupdict. -/
def pyMatch (r : Regex) (s : String) : Option (List (String × Option String)) :=
  match mruns r s.toList [] with
  | [] => none
  | p :: _ => some (pyGroupdict r p.2)

/-- Python Pattern.fullmatch succeeds exactly when some run consumes the
entire string; used to state full-anchoring claims. -/
def pyFullmatchOk (r : Regex) (s : String) : Bool :=
  (mruns r s.toList []).any (fun p => p.1 = [])

/-- Python dict.get(k) on a groupdict: None when the key is absent, the
stored value (itself possibly None) when present. -/
def dictGet (gd : List (String × Option String)) (k : String) : Option String :=
  match gd.lookup k with
  | some v => v
  | none => none

/-- Python truthiness test (not x) for a str-or-None value. -/
def pyFalsy (o : Option String) : Prop :=
  o.getD "" = ""

instance (o : Option String) : Decidable (pyFalsy o) := by
  unfold pyFalsy; infer_instance

/-! ## FilenameParser (parsers.py) -/

/-- Parsed filename record (parsers.py ParsedFilename).  The extension
field is annotated str in the source but the code can store Python None
in it, so it is Option String here; variant is optional by design. -/
structure ParsedFilename where
  module : String
  category : String
  feature : String
  variant : Option String
  extension : Option String
  original_name : String
deriving DecidableEq, Repr

/-- Required named groups checked by FilenameParser init. -/
def requiredGroups : List String := ["module", "category", "feature"]

/-- A constructed FilenameParser holds the compiled pattern. -/
structure FilenameParser where
  pattern : Regex
deriving DecidableEq, Repr

/-- FilenameParser init (parsers.py lines 27-44): re.compile failure
(modelled as Option.none input) raises ParseError; a compiled pattern
missing one of the required named groups module, category, feature also
raises ParseError. -/
def FilenameParser.build (compiled : Option Regex) : Except PyErr FilenameParser :=
  match compiled with
  | none => .error .parseError
  | some r =>
      if requiredGroups.all (fun g => r.groupNames.contains g) then
        .ok ⟨r⟩
      else
        .error .parseError

/-- The extension value computed by parse:
groups.get(String.mk txt, groups.get ...) on the groupdict, where the keys
are ext then extension and the final default is the empty string. -/
def pyExtension (gd : List (String × Option String)) : Option String :=
  match gd.lookup "ext" with
  | some v => v
  | none =>
      match gd.lookup "extension" with
      | some v => v
      | none => some ""

/-- FilenameParser.parse (parsers.py lines 46-82): Pattern.match the
filename; no match raises ParseError; a falsy (None or empty) module,
category or feature raises ParseError; otherwise the ParsedFilename is
assembled from the groupdict. -/
def FilenameParser.parse (p : FilenameParser) (filename : String) :
    Except PyErr ParsedFilename :=
  match pyMatch p.pattern filename with
  | none => .error .parseError
  | some gd =>
      let module := dictGet gd "module"
      let category := dictGet gd "category"
      let feature := dictGet gd "feature"
      let variant := dictGet gd "variant"
      let extension := pyExtension gd
      if pyFalsy module ∨ pyFalsy category ∨ pyFalsy feature then
        .error .parseError
      else
        .ok ⟨module.getD "", category.getD "", feature.getD "", variant,
             extension, filename⟩

/-! ## Python format strings and paths -/

/-- One piece of a Python format string: literal text or a replacement
field naming a keyword argument. -/
inductive FmtItem
  | lit (s : String)
  | field (name : String)
deriving DecidableEq, Repr

/-- A format string is its sequence of pieces. -/
abbrev FmtString := List FmtItem

/-- Python str.format with keyword arguments: a field whose name is not
among the keywords raises KeyError. -/
def pyFormat (tmpl : FmtString) (kwargs : List (String × String)) :
    Except PyErr String :=
  match tmpl with
  | [] => .ok ""
  | .lit s :: rest =>
      match pyFormat rest kwargs with
      | .ok t => .ok (s ++ t)
      | .error e => .error e
  | .field n :: rest =>
      match kwargs.lookup n with
      | none => .error .keyError
      | some v =>
          match pyFormat rest kwargs with
          | .ok t => .ok (v ++ t)
          | .error e => .error e

/-- The replacement-field names of a format string. -/
def fmtFields (tmpl : FmtString) : List String :=
  tmpl.filterMap (fun it => match it with | .lit _ => none | .field n => some n)

/-- A pathlib path, as its list of components. -/
abbrev PyPath := List String

/-- Split a character list at the path separator. -/
def splitSlash (l : List Char) : List (List Char) :=
  l.foldr
    (fun c acc =>
      if c = '/' then [] :: acc
      else (c :: acc.headD []) :: acc.tail)
    [[]]

/-- Components contributed by a string operand of the pathlib slash
operator: split on the separator, dropping empty pieces. -/
def pathOfString (s : String) : PyPath :=
  ((splitSlash s.toList).map (fun cs => String.mk cs)).filter (fun c => c ≠ "")

/-- The pathlib slash operator with a (relative) string on the right. -/
def pyJoin (p : PyPath) (s : String) : PyPath :=
  p ++ pathOfString s

/-- Path.name: the final component (empty for the empty path). -/
def pyName (p : PyPath) : String :=
  p.getLast?.getD ""

/-- A path rendered back to text with separators, as str() of a relative
pathlib path does. -/
def pathToString (p : PyPath) : String :=
  String.intercalate "/" p

/-- Path.relative_to: purely lexical, succeeds exactly when the base's
components are a prefix of the path's components; dot-dot components are
not resolved.  Failure is ValueError. -/
def relativeTo (child base : PyPath) : Except PyErr PyPath :=
  if base.isPrefixOf child then .ok (child.drop base.length)
  else .error .valueError

/-- Resolution of dot-dot and dot components, for stating where a path
actually points. -/
def resolvePath (p : PyPath) : PyPath :=
  p.foldl
    (fun acc c => if c = ".." then acc.dropLast else if c = "." then acc else acc ++ [c])
    []

/-- Whether a path resolves to a location inside a root directory. -/
def resolvesInside (root p : PyPath) : Bool :=
  (resolvePath root).isPrefixOf (resolvePath p)

/-- Python Path.stem and Path.suffix of a file name: split at the last
dot when that dot is neither the first nor the last character, else the
suffix is empty. -/
def pyStemSuffix (name : String) : String × String :=
  let l := name.toList
  match (l.reverse.findIdx? (fun c => c = '.')) with
  | none => (name, "")
  | some rIdx =>
      let i := l.length - 1 - rIdx
      if 0 < i ∧ i < l.length - 1 then
        (String.mk (l.take i), String.mk (l.drop i))
      else
        (name, "")

/-! ## PathGenerator (core/path_generator.py) -/

/-- PathGenerator holds the configured path template and asset root. -/
structure PathGenerator where
  path_template : FmtString
  asset_root : String
deriving DecidableEq, Repr

/-- PathGenerator.generate (lines 22-43): render the template with the
module, category and feature keywords (KeyError propagates for an unknown
field), then join repo_base, asset_root, the rendered directory and the
original file name. -/
def PathGenerator.generate (g : PathGenerator) (parsed : ParsedFilename)
    (repo_base : PyPath) : Except PyErr PyPath :=
  match pyFormat g.path_template
      [("module", parsed.module), ("category", parsed.category),
       ("feature", parsed.feature)] with
  | .error e => .error e
  | .ok rel_dir =>
      .ok (pyJoin (pyJoin (pyJoin repo_base g.asset_root) rel_dir)
            parsed.original_name)

/-- The characters replaced by sanitize_path_component. -/
def illegalChars : List Char := ['<', '>', ':', '"', '|', '?', '*', '\\', '/']

/-- One Python str.replace of a single character by an underscore. -/
def replaceChar (s : List Char) (old : Char) : List Char :=
  s.map (fun c => if c = old then '_' else c)

/-- PathGenerator.sanitize_path_component (lines 45-63): replace each
illegal character by an underscore, then truncate to 100 characters. -/
def sanitize_path_component (component : String) : String :=
  let cleaned := illegalChars.foldl replaceChar component.toList
  if cleaned.length > 100 then String.mk (cleaned.take 100)
  else String.mk cleaned

/-! ## GitRepo (core/git_repo.py)

Each git subprocess call is a blocking external effect; its outcome is an
input here.  Calls record the argument list handed to the git subprocess,
so that theorems can speak about whether a command was invoked at all. -/

/-- Outcome of one git subprocess invocation: exit 0, or a
CalledProcessError carrying stderr. -/
inductive CmdResult
  | ok
  | fail (stderr : String)
deriving DecidableEq, Repr

instance {ε α : Type} [DecidableEq ε] [DecidableEq α] : DecidableEq (Except ε α)
  | .ok x, .ok y =>
      if h : x = y then .isTrue (by rw [h])
      else .isFalse (by intro he; cases he; exact h rfl)
  | .ok _, .error _ => .isFalse (by intro h; cases h)
  | .error _, .ok _ => .isFalse (by intro h; cases h)
  | .error e, .error f =>
      if h : e = f then .isTrue (by rw [h])
      else .isFalse (by intro he; cases he; exact h rfl)

/-- Result of a GitRepo method: the git argument list handed to the
subprocess, when one was invoked at all, and the Python-level result. -/
structure GitCallResult where
  invoked : Option (List String)
  result : Except PyErr Unit
deriving DecidableEq, Repr

/-- GitRepo owns the local working-copy path. -/
structure GitRepo where
  repo_path : PyPath
deriving DecidableEq, Repr

/-- Boolean infix test on character lists. -/
def listIsInfixOf (needle hay : List Char) : Bool :=
  hay.tails.any (fun t => needle.isPrefixOf t)

/-- Substring containment, as the Python in operator on str. -/
def containsSubstr (hay needle : String) : Bool :=
  listIsInfixOf needle.toList hay.toList

/-- GitRepo.add (lines 58-70): relative_to against the repository path
guards the argument; ValueError becomes GitError with no git invocation;
otherwise git add runs and a non-zero exit becomes GitError. -/
def GitRepo.add (g : GitRepo) (file_path : PyPath) (cmd : CmdResult) :
    GitCallResult :=
  match relativeTo file_path g.repo_path with
  | .error _ => ⟨none, .error .gitError⟩
  | .ok rel =>
      ⟨some ["add", pathToString rel],
       match cmd with
       | .ok => .ok ()
       | .fail _ => .error .gitError⟩

/-- GitRepo.remove (lines 100-112): same guard as add, running git rm. -/
def GitRepo.remove (g : GitRepo) (file_path : PyPath) (cmd : CmdResult) :
    GitCallResult :=
  match relativeTo file_path g.repo_path with
  | .error _ => ⟨none, .error .gitError⟩
  | .ok rel =>
      ⟨some ["rm", pathToString rel],
       match cmd with
       | .ok => .ok ()
       | .fail _ => .error .gitError⟩

/-- GitRepo.commit (lines 72-84): a failing git commit whose stderr
contains the nothing-to-commit marker is treated as success; any other
failure raises GitError. -/
def GitRepo.commit (g : GitRepo) (message : String) (cmd : CmdResult) :
    Except PyErr Unit :=
  match cmd with
  | .ok => .ok ()
  | .fail stderr =>
      if containsSubstr stderr "nothing to commit" then .ok ()
      else .error .gitError

/-! ## Config (core/config.py, the parts the processor reads) -/

/-- Configuration as the processor consumes it.  The workspace directories
are all derived from the resolved base, exactly as Config resolves them:
inbox, .repo and failed are fixed child names of the base. -/
structure PConfig where
  base : PyPath
  path_template : FmtString
  asset_root : String
  commit_template : FmtString
deriving DecidableEq, Repr

/-- Config.inbox. -/
def PConfig.inbox (c : PConfig) : PyPath := c.base ++ ["inbox"]

/-- Config.repo: the hidden working copy. -/
def PConfig.repo (c : PConfig) : PyPath := c.base ++ [".repo"]

/-- Config.failed: the failure sink directory. -/
def PConfig.failed (c : PConfig) : PyPath := c.base ++ ["failed"]

/-! ## FileProcessor (core/processor.py) -/

/-- Outcomes of the external effects one process call can perform, fixed
up front: whether the working copy exists, the result of each git
subprocess, whether the inbox parent directory still exists at recovery
time, whether the failed directory already holds a file of the same name,
and the timestamp the failure sink would use. -/
structure GitEnv where
  repoExists : Bool
  pullOk : Bool
  addCmd : CmdResult
  commitCmd : CmdResult
  pushOk : Bool
  inboxParentExists : Bool
  failedCollision : Bool
  timestamp : String
deriving DecidableEq, Repr

/-- The file name the failure sink stores a file under: the original name,
or stem, underscore, timestamp, suffix on collision. -/
def failedTargetName (env : GitEnv) (name : String) : String :=
  if env.failedCollision then
    let p := pyStemSuffix name
    p.1 ++ "_" ++ env.timestamp ++ p.2
  else name

/-- FileProcessor._move_to_failed (processor.py lines 119-137): shutil.move
of the claimed source path into the failed directory, timestamping on
collision.  The move raises (and is swallowed, leaving the file where it
actually is) when the claimed source is not where the file actually is. -/
def moveToFailed (cfg : PConfig) (env : GitEnv) (srcClaimed actual : PyPath) :
    PyPath :=
  let failedPath := cfg.failed ++ [failedTargetName env (pyName srcClaimed)]
  if srcClaimed = actual then failedPath else actual

/-- FileProcessor._handle_git_failure (lines 101-117): move the file back
from the target to the original inbox path when the inbox parent directory
still exists, otherwise hand the file (now at the target) to the failure
sink. -/
def handleGitFailure (cfg : PConfig) (env : GitEnv)
    (targetPath originalPath : PyPath) : PyPath :=
  if env.inboxParentExists then originalPath
  else moveToFailed cfg env targetPath targetPath

/-- The commit-message substitution the orchestrator performs (processor.py
lines 69-73): the configured template formatted with exactly the module,
category and feature keywords. -/
def commitMsgSubst (tmpl : FmtString) (parsed : ParsedFilename) :
    Except PyErr String :=
  pyFormat tmpl
    [("module", parsed.module), ("category", parsed.category),
     ("feature", parsed.feature)]

/-- How the version-control stage of process can fail: a GitError from
pull, add, commit or push, or an unknown exception (the KeyError a bad
commit template raises inside the stage, which is not a GitError). -/
inductive StageErr
  | git
  | unknownKey
deriving DecidableEq, Repr

/-- Step 5 of process (lines 60-77): pull, add, format the commit message,
commit, push, in that order, under the try that catches GitError. -/
def gitStage (env : GitEnv) (cfg : PConfig) (parsed : ParsedFilename)
    (targetPath : PyPath) : Except StageErr Unit :=
  if env.pullOk then
    match (GitRepo.mk cfg.repo |>.add targetPath env.addCmd).result with
    | .error _ => .error .git
    | .ok _ =>
        match commitMsgSubst cfg.commit_template parsed with
        | .error _ => .error .unknownKey
        | .ok msg =>
            match (GitRepo.mk cfg.repo |>.commit msg env.commitCmd) with
            | .error _ => .error .git
            | .ok _ => if env.pushOk then .ok () else .error .git
  else .error .git

/-- A constructed FileProcessor: the configuration and the parser built
from the configured naming pattern. -/
structure FileProcessor where
  config : PConfig
  parser : FilenameParser
deriving DecidableEq, Repr

/-- Terminal outcome of one process call: the returned boolean, where the
file ends up, and whether the file reached a committed-and-pushed state. -/
structure Outcome where
  result : Bool
  fileAt : PyPath
  pushed : Bool
deriving DecidableEq, Repr

/-- FileProcessor.process (processor.py lines 29-99).  Control flow of the
source, with the file location tracked explicitly: a missing working copy
raises ProcessError before anything moves; a ParseError is re-raised as
ProcessError; both land in the except branch that hands the (still in
inbox) file to the failure sink.  A KeyError from the path template is an
unknown exception caught the same way, still before the move.  After the
move, a GitError triggers the compensating recovery, while an unknown
exception (a KeyError from the commit template) reaches the outer handler,
whose move_to_failed names the original inbox path although the file is
now at the target, so that recovery move fails and is swallowed. -/
def FileProcessor.process (P : FileProcessor) (env : GitEnv)
    (file_path : PyPath) : Outcome :=
  let cfg := P.config
  if env.repoExists then
    match P.parser.parse (pyName file_path) with
    | .error _ => ⟨false, moveToFailed cfg env file_path file_path, false⟩
    | .ok parsed =>
        match PathGenerator.mk cfg.path_template cfg.asset_root
            |>.generate parsed cfg.repo with
        | .error _ => ⟨false, moveToFailed cfg env file_path file_path, false⟩
        | .ok targetPath =>
            match gitStage env cfg parsed targetPath with
            | .ok _ => ⟨true, targetPath, true⟩
            | .error .git =>
                ⟨false, handleGitFailure cfg env targetPath file_path, false⟩
            | .error .unknownKey =>
                ⟨false, moveToFailed cfg env file_path targetPath, false⟩
  else
    ⟨false, moveToFailed cfg env file_path file_path, false⟩

/-! ## Shared concrete patterns for evaluation -/

/-- The pattern with groups module, category, feature matching the
literals a, b, c in sequence. -/
def patABC : Regex :=
  .seq (.group "module" (.lit 'a'))
    (.seq (.group "category" (.lit 'b')) (.group "feature" (.lit 'c')))

/-- patABC followed by an optional named group ext matching the literal
d, as the pattern text would write with a question mark. -/
def patABCext : Regex :=
  .seq patABC (.alt (.group "ext" (.lit 'd')) .eps)

/-! ## Helper lemmas -/

/-- Lookup misses every association list built over keys not containing
the probe. -/
theorem lookup_map_pair_eq_none {β : Type} (ns : List String) (g : String → β)
    (k : String) (hk : k ∉ ns) :
    (ns.map (fun n => (n, g n))).lookup k = none := by
  induction ns with
  | nil => rfl
  | cons a t ih =>
      have hka : k ≠ a := fun h => hk (h ▸ List.mem_cons_self a t)
      have hkt : k ∉ t := fun h => hk (List.mem_cons_of_mem a h)
      have hbeq : (k == a) = false := by simpa using hka
      simp [List.lookup, hbeq, ih hkt]

/-- Appending different head components to a common base yields different
paths. -/
theorem append_cons_ne (base : PyPath) {x y : String} (hxy : x ≠ y)
    (r s : PyPath) : base ++ x :: r ≠ base ++ y :: s := by
  intro h
  have h2 := List.append_cancel_left h
  injection h2 with h3 _
  exact hxy h3

/-- The last component of a path extended by one more component. -/
theorem pyName_append (p : PyPath) (a : String) : pyName (p ++ [a]) = a := by
  simp [pyName]

/-- Every successful target path of generate extends the repository base. -/
theorem generate_shape (g : PathGenerator) (parsed : ParsedFilename)
    (base t : PyPath)
    (h : g.generate parsed base = .ok t) : ∃ r, t = base ++ r := by
  unfold PathGenerator.generate at h
  cases hf : pyFormat g.path_template
      [("module", parsed.module), ("category", parsed.category),
       ("feature", parsed.feature)] with
  | error e => rw [hf] at h; cases h
  | ok rel =>
      rw [hf] at h
      injection h with h2
      refine ⟨pathOfString g.asset_root ++
        (pathOfString rel ++ pathOfString parsed.original_name), ?_⟩
      rw [← h2]
      simp [pyJoin, List.append_assoc]

/-! ## Claim C3 -/

/-- C3 counterexample: constructing the parser from a syntactically valid
pattern that lacks all three required named groups fails, but with
ParseError, not ConfigurationError as the claim states. -/
theorem C3_counterexample :
    ¬ (∀ e, FilenameParser.build (some (Regex.lit 'a')) = .error e →
        e = PyErr.configError) := by
  intro h
  exact absurd (h PyErr.parseError rfl) (by decide)

/-- C3 (amended): for every pattern, parser construction fails exactly
when the pattern is invalid (rejected by the regex compiler) or one of
the required named groups module, category, feature is missing, and the
error raised is ParseError (the source raises ParseError here, not
ConfigurationError); construction succeeds otherwise, so parse is never
reached with an invalid pattern. -/
theorem C3_build_parseError (compiled : Option Regex) :
    (exceptIsOk (FilenameParser.build compiled) = true ↔
      ∃ r, compiled = some r ∧
        requiredGroups.all (fun g => r.groupNames.contains g) = true)
    ∧ (∀ e, FilenameParser.build compiled = .error e → e = PyErr.parseError) := by
  constructor
  · cases compiled with
    | none => simp [FilenameParser.build, exceptIsOk]
    | some r =>
        simp only [FilenameParser.build]
        split
        · next h =>
            constructor
            · intro _
              exact ⟨r, rfl, h⟩
            · intro _
              rfl
        · next h =>
            simp only [exceptIsOk]
            constructor
            · intro hfalse; exact absurd hfalse (by decide)
            · rintro ⟨r2, hr2, hall⟩
              injection hr2 with hr3
              exact absurd (hr3 ▸ hall) h
  · intro e he
    cases compiled with
    | none =>
        simp only [FilenameParser.build] at he
        injection he with h2
        exact h2.symm
    | some r =>
        simp only [FilenameParser.build] at he
        by_cases h : requiredGroups.all (fun g => r.groupNames.contains g) = true
        · rw [if_pos h] at he; cases he
        · rw [if_neg h] at he; injection he with h2; exact h2.symm

/-- C3 witness: at a concrete valid pattern construction succeeds, and at
a concrete group-less pattern it fails with ParseError. -/
theorem C3_build_parseError_witness :
    (exceptIsOk (FilenameParser.build (some patABC)) = true) ∧
    PyErr.parseError = PyErr.parseError := by
  constructor
  · exact (C3_build_parseError (some patABC)).1.mpr ⟨patABC, rfl, by decide⟩
  · exact (C3_build_parseError (some (Regex.lit 'a'))).2 PyErr.parseError rfl

/-! ## Claim C4 -/

/-- C4 counterexample: the pattern matching a, b, c as module, category,
feature does not full-match the filename abcx, yet parse accepts that
filename, because the source anchors only the start of the string
(Pattern.match), not both ends as the claim states. -/
theorem C4_counterexample :
    pyFullmatchOk patABC "abcx" = false ∧
    FilenameParser.parse ⟨patABC⟩ "abcx" =
      .ok ⟨"a", "b", "c", none, some "", "abcx"⟩ := by
  exact ⟨rfl, rfl⟩

/-- C4 (amended): parse raises ParseError exactly when the filename does
not match the pattern anchored at the start only (prefix matching, the
semantics of Pattern.match; a match consuming a proper prefix of the
filename is accepted), or when a required group of the chosen match is
missing or captures an empty string; otherwise it returns a
ParsedFilename whose module, category and feature are non-empty. -/
theorem C4_parse_start_anchored (p : FilenameParser) (f : String) :
    (exceptIsOk (p.parse f) = false ↔
      pyMatch p.pattern f = none ∨
        ∃ gd, pyMatch p.pattern f = some gd ∧
          (pyFalsy (dictGet gd "module") ∨ pyFalsy (dictGet gd "category") ∨
            pyFalsy (dictGet gd "feature")))
    ∧ (∀ pf, p.parse f = .ok pf →
        pf.module ≠ "" ∧ pf.category ≠ "" ∧ pf.feature ≠ "") := by
  constructor
  · cases hm : pyMatch p.pattern f with
    | none => simp [FilenameParser.parse, hm, exceptIsOk]
    | some gd =>
        simp only [FilenameParser.parse, hm]
        by_cases hbad : pyFalsy (dictGet gd "module") ∨
            pyFalsy (dictGet gd "category") ∨ pyFalsy (dictGet gd "feature")
        · simp [hbad, exceptIsOk]
        · simp [hbad, exceptIsOk]
  · intro pf hpf
    cases hm : pyMatch p.pattern f with
    | none => simp [FilenameParser.parse, hm] at hpf
    | some gd =>
        simp only [FilenameParser.parse, hm] at hpf
        by_cases hbad : pyFalsy (dictGet gd "module") ∨
            pyFalsy (dictGet gd "category") ∨ pyFalsy (dictGet gd "feature")
        · simp [hbad] at hpf
        · simp only [hbad, if_false, if_neg hbad] at hpf
          injection hpf with h2
          push_neg at hbad
          unfold pyFalsy at hbad
          rw [← h2]
          exact ⟨hbad.1, hbad.2.1, hbad.2.2⟩

/-- C4 witness: the amended statement applied at the concrete pattern and
the exactly matching filename abc. -/
theorem C4_parse_start_anchored_witness :
    ParsedFilename.module ⟨"a", "b", "c", none, some "", "abc"⟩ ≠ "" ∧
    ParsedFilename.category ⟨"a", "b", "c", none, some "", "abc"⟩ ≠ "" ∧
    ParsedFilename.feature ⟨"a", "b", "c", none, some "", "abc"⟩ ≠ "" :=
  (C4_parse_start_anchored ⟨patABC⟩ "abc").2
    ⟨"a", "b", "c", none, some "", "abc"⟩ rfl

/-- On a successful match, keys absent from the named groups of the
pattern are absent from the groupdict. -/
theorem pyMatch_lookup_none (r : Regex) (f : String)
    (gd : List (String × Option String)) (hm : pyMatch r f = some gd)
    (k : String) (hk : k ∉ r.groupNames) : gd.lookup k = none := by
  unfold pyMatch at hm
  cases hr : mruns r f.toList [] with
  | nil => rw [hr] at hm; cases hm
  | cons q t =>
      rw [hr] at hm
      injection hm with h3
      rw [← h3]
      unfold pyGroupdict
      exact lookup_map_pair_eq_none _ _ _
        (fun hmem => hk (List.mem_dedup.mp hmem))

/-! ## Claim C10 -/

/-- C10: parse may return a ParsedFilename whose extension is Python None
rather than a string: when the pattern defines an optional named group
ext that does not participate in the match, the groupdict entry is None
and is returned as-is; the empty-string default applies only when the
pattern defines neither an ext nor an extension group. -/
theorem C10_extension_optional_none (p : FilenameParser) (f : String)
    (pf : ParsedFilename) (h : p.parse f = .ok pf) :
    (("ext" ∉ p.pattern.groupNames ∧ "extension" ∉ p.pattern.groupNames) →
      pf.extension = some "")
    ∧ (∀ gd, pyMatch p.pattern f = some gd → gd.lookup "ext" = some none →
      pf.extension = none) := by
  cases hm : pyMatch p.pattern f with
  | none => simp [FilenameParser.parse, hm] at h
  | some gd =>
      simp only [FilenameParser.parse, hm] at h
      by_cases hbad : pyFalsy (dictGet gd "module") ∨
          pyFalsy (dictGet gd "category") ∨ pyFalsy (dictGet gd "feature")
      · simp [hbad] at h
      · simp only [hbad, if_neg hbad] at h
        injection h with h2
        constructor
        · intro hno
          rw [← h2]
          show pyExtension gd = some ""
          have hext : gd.lookup "ext" = none :=
            pyMatch_lookup_none p.pattern f gd hm "ext" hno.1
          have hext2 : gd.lookup "extension" = none :=
            pyMatch_lookup_none p.pattern f gd hm "extension" hno.2
          unfold pyExtension
          rw [hext, hext2]
        · intro gd2 hgd2 hlook
          injection hgd2 with h3
          rw [← h2]
          show pyExtension gd = none
          unfold pyExtension
          rw [h3, hlook]

/-- C10 witness: at a concrete pattern whose optional ext group does not
participate, the returned extension is None. -/
theorem C10_extension_optional_none_witness :
    ParsedFilename.extension ⟨"a", "b", "c", none, none, "abc"⟩ = none :=
  (C10_extension_optional_none ⟨patABCext⟩ "abc"
      ⟨"a", "b", "c", none, none, "abc"⟩ rfl).2
    [("module", some "a"), ("category", some "b"), ("feature", some "c"),
     ("ext", none)] rfl rfl

/-! ## Claim C5 -/

/-- Membership after one character replacement. -/
theorem mem_replaceChar {c old : Char} {l : List Char}
    (h : c ∈ replaceChar l old) : c = '_' ∨ (c ∈ l ∧ c ≠ old) := by
  unfold replaceChar at h
  rcases List.mem_map.mp h with ⟨x, hx, hfx⟩
  by_cases hxo : x = old
  · left
    rw [hxo] at hfx
    simpa using hfx.symm
  · right
    have hcx : c = x := by simpa [hxo] using hfx.symm
    exact ⟨hcx ▸ hx, hcx ▸ hxo⟩

/-- Membership after folding replacements over a list of characters. -/
theorem mem_foldl_replace {cs l : List Char} {c : Char}
    (h : c ∈ cs.foldl replaceChar l) : c = '_' ∨ (c ∈ l ∧ c ∉ cs) := by
  induction cs generalizing l with
  | nil => exact Or.inr ⟨h, by simp⟩
  | cons a t ih =>
      rcases ih (l := replaceChar l a) h with h1 | ⟨h2, h3⟩
      · exact Or.inl h1
      · rcases mem_replaceChar h2 with h4 | ⟨h5, h6⟩
        · exact Or.inl h4
        · exact Or.inr ⟨h5, by simp [h6, h3]⟩

/-- C5 counterexample: generate interpolates the module field into the
target path without sanitization, so a module containing a colon (one of
the characters the claim forbids) appears verbatim as a directory
component, although sanitize_path_component would have cleaned it. -/
theorem C5_counterexample :
    PathGenerator.generate ⟨[FmtItem.field "module"], "Assets"⟩
        ⟨"a:b", "c", "f", none, some "", "n.png"⟩ ["repo"] =
      .ok ["repo", "Assets", "a:b", "n.png"] ∧
    ':' ∈ "a:b".toList ∧ ':' ∈ illegalChars ∧
    sanitize_path_component "a:b" = "a_b" := by
  exact ⟨rfl, by decide, by decide, rfl⟩

/-- C5 (amended): sanitize_path_component does map every string to one
containing none of the characters it replaces and of length at most 100,
but PathGenerator.generate never applies it: the module, category and
feature values are interpolated into the target path unsanitized. -/
theorem C5_sanitize_property (component : String) :
    (∀ c ∈ (sanitize_path_component component).toList, c ∉ illegalChars)
    ∧ (sanitize_path_component component).length ≤ 100 := by
  constructor
  · intro c hc
    unfold sanitize_path_component at hc
    have hc2 : c ∈ illegalChars.foldl replaceChar component.toList := by
      by_cases hlen :
          (illegalChars.foldl replaceChar component.toList).length > 100
      · rw [if_pos hlen] at hc
        exact List.mem_of_mem_take hc
      · rw [if_neg hlen] at hc
        exact hc
    rcases mem_foldl_replace hc2 with h1 | ⟨_, h3⟩
    · rw [h1]; decide
    · exact h3
  · unfold sanitize_path_component
    by_cases hlen :
        (illegalChars.foldl replaceChar component.toList).length > 100
    · rw [if_pos hlen]
      show (List.take 100 _).length ≤ 100
      simp [List.length_take]
    · rw [if_neg hlen]
      show (illegalChars.foldl replaceChar component.toList).length ≤ 100
      omega

/-- C5 witness: the sanitization property evaluated on a concrete dirty
component. -/
theorem C5_sanitize_property_witness :
    'a' ∉ illegalChars ∧ (sanitize_path_component "a:/b").length ≤ 100 :=
  ⟨(C5_sanitize_property "a:/b").1 'a' (by decide),
   (C5_sanitize_property "a:/b").2⟩

/-! ## Claim C7 -/

/-- C7: commit treats a failing git commit whose stderr reports nothing
to commit as success (a no-op), and raises GitError only for other
command failures. -/
theorem C7_commit_idempotent (g : GitRepo) (message stderr : String) :
    (containsSubstr stderr "nothing to commit" = true →
      g.commit message (CmdResult.fail stderr) = .ok ())
    ∧ (∀ e, g.commit message (CmdResult.fail stderr) = .error e →
      e = PyErr.gitError ∧ containsSubstr stderr "nothing to commit" = false)
    ∧ g.commit message CmdResult.ok = .ok () := by
  refine ⟨fun h => by simp [GitRepo.commit, h], fun e he => ?_, rfl⟩
  simp only [GitRepo.commit] at he
  by_cases h : containsSubstr stderr "nothing to commit" = true
  · simp [h] at he
  · rw [Bool.not_eq_true] at h
    simp [h] at he
    exact ⟨he.symm, h⟩

/-- C7 witness: a concrete nothing-to-commit stderr is treated as
success. -/
theorem C7_commit_idempotent_witness :
    GitRepo.commit ⟨["w", ".repo"]⟩ "msg"
      (CmdResult.fail "nothing to commit, working tree clean") = .ok () :=
  (C7_commit_idempotent ⟨["w", ".repo"]⟩ "msg"
    "nothing to commit, working tree clean").1 (by decide)

/-! ## Claim C8 -/

/-- C8 counterexample: a path that lexically starts with the repository
root but escapes it through dot-dot components does not resolve inside
the root, yet both add and remove accept it and invoke the git command on
it, because relative_to compares components lexically without resolving
dot-dot. -/
theorem C8_counterexample :
    resolvesInside ["w", ".repo"] ["w", ".repo", "..", "..", "etc", "x"] = false ∧
    GitRepo.add ⟨["w", ".repo"]⟩ ["w", ".repo", "..", "..", "etc", "x"]
      CmdResult.ok = ⟨some ["add", "../../etc/x"], .ok ()⟩ ∧
    GitRepo.remove ⟨["w", ".repo"]⟩ ["w", ".repo", "..", "..", "etc", "x"]
      CmdResult.ok = ⟨some ["rm", "../../etc/x"], .ok ()⟩ := by
  exact ⟨rfl, rfl, rfl⟩

/-- C8 (amended): the guard in add and remove is lexical: they fail with
GitError and invoke no git command exactly when the repository root's
components are not a prefix of the argument's components; whenever the
root is a lexical prefix the git command is invoked on the remainder,
including for dot-dot paths that resolve outside the root. -/
theorem C8_lexical_guard (g : GitRepo) (p : PyPath) (cmd : CmdResult) :
    (g.repo_path.isPrefixOf p = false →
      g.add p cmd = ⟨none, .error PyErr.gitError⟩ ∧
      g.remove p cmd = ⟨none, .error PyErr.gitError⟩)
    ∧ (g.repo_path.isPrefixOf p = true →
      (g.add p cmd).invoked =
        some ["add", pathToString (p.drop g.repo_path.length)] ∧
      (g.remove p cmd).invoked =
        some ["rm", pathToString (p.drop g.repo_path.length)]) := by
  constructor
  · intro h
    constructor
    · unfold GitRepo.add relativeTo
      rw [if_neg (by simp [h])]
    · unfold GitRepo.remove relativeTo
      rw [if_neg (by simp [h])]
  · intro h
    constructor
    · unfold GitRepo.add relativeTo
      rw [if_pos (by simp [h])]
    · unfold GitRepo.remove relativeTo
      rw [if_pos (by simp [h])]

/-- C8 witness: the amended guard evaluated on a path outside the root
and on a path inside it. -/
theorem C8_lexical_guard_witness :
    (GitRepo.add ⟨["w", ".repo"]⟩ ["w", "inbox", "f"] CmdResult.ok =
      ⟨none, .error PyErr.gitError⟩ ∧
     GitRepo.remove ⟨["w", ".repo"]⟩ ["w", "inbox", "f"] CmdResult.ok =
      ⟨none, .error PyErr.gitError⟩) ∧
    (GitRepo.add ⟨["w", ".repo"]⟩ ["w", ".repo", "a", "f"] CmdResult.ok).invoked =
      some ["add", "a/f"] := by
  constructor
  · exact (C8_lexical_guard ⟨["w", ".repo"]⟩ ["w", "inbox", "f"]
      CmdResult.ok).1 (by decide)
  · exact ((C8_lexical_guard ⟨["w", ".repo"]⟩ ["w", ".repo", "a", "f"]
      CmdResult.ok).2 (by decide)).1

/-! ## Claim C9 -/

/-- C9: the per-file commit-message substitution supplies only the
module, category and feature keywords, so a configured template using the
documented file_count placeholder (as the default template in
constants.py does) raises KeyError instead of producing a message,
contradicting the claim for templates restricted to the documented
placeholder set. -/
theorem C9_commit_template_keyerror :
    commitMsgSubst [FmtItem.lit "Files: ", FmtItem.field "file_count"]
      ⟨"GameRes", "Character", "Hero", none, some "fbx",
       "GameRes_Character_Hero.fbx"⟩ = .error PyErr.keyError ∧
    commitMsgSubst [FmtItem.lit "Update ", FmtItem.field "category",
        FmtItem.lit ": ", FmtItem.field "feature"]
      ⟨"GameRes", "Character", "Hero", none, some "fbx",
       "GameRes_Character_Hero.fbx"⟩ = .ok "Update Character: Hero" := by
  exact ⟨rfl, rfl⟩

/-! ## Workspace path disjointness -/

/-- Different immediate children of the workspace base root different
subtrees. -/
theorem workspace_child_ne (b : PyPath) (x y : String) (hxy : x ≠ y)
    (l m : PyPath) : (b ++ [x]) ++ l ≠ (b ++ [y]) ++ m := by
  simpa [List.append_assoc] using append_cons_ne b hxy l m

/-- No inbox path is a working-copy path. -/
theorem inbox_ne_repo (c : PConfig) (l m : PyPath) :
    c.inbox ++ l ≠ c.repo ++ m :=
  workspace_child_ne c.base "inbox" ".repo" (by decide) l m

/-- No working-copy path is a failed-directory path. -/
theorem repo_ne_failed (c : PConfig) (l m : PyPath) :
    c.repo ++ l ≠ c.failed ++ m :=
  workspace_child_ne c.base ".repo" "failed" (by decide) l m

/-- No inbox path is a failed-directory path. -/
theorem inbox_ne_failed (c : PConfig) (l m : PyPath) :
    c.inbox ++ l ≠ c.failed ++ m :=
  workspace_child_ne c.base "inbox" "failed" (by decide) l m

/-- The failure sink, handed the true location of the file, puts it into
the failed directory under the collision-safe name. -/
theorem moveToFailed_self (c : PConfig) (env : GitEnv) (p : PyPath) :
    moveToFailed c env p p = c.failed ++ [failedTargetName env (pyName p)] := by
  unfold moveToFailed
  rw [if_pos rfl]

/-! ## Claim C2 -/

/-- C2 counterexample: with the working copy missing, process does not
leave the file at its inbox location: it moves it into the failed
directory, contradicting the claim that pre-move failures perform no
filesystem mutation. -/
theorem C2_counterexample :
    FileProcessor.process
        ⟨⟨["w"], [FmtItem.field "module"], "Assets", [FmtItem.lit "m"]⟩,
         ⟨patABC⟩⟩
        ⟨false, true, .ok, .ok, true, true, false, "TS"⟩
        ["w", "inbox", "abc"] =
      ⟨false, ["w", "failed", "abc"], false⟩ ∧
    (["w", "failed", "abc"] : PyPath) ≠ ["w", "inbox", "abc"] := by
  exact ⟨rfl, by decide⟩

/-- C2 (amended): pre-move failures (missing working copy, or a filename
that fails to parse) never move the file to the target path, but they are
not mutation-free: process moves the file from its inbox location into
the failed directory (timestamp-suffixed on collision) and reports
failure. -/
theorem C2_premove_failure_routed_to_failed (P : FileProcessor)
    (env : GitEnv) (name : String)
    (h : env.repoExists = false ∨ exceptIsOk (P.parser.parse name) = false) :
    P.process env (P.config.inbox ++ [name]) =
      ⟨false, P.config.failed ++ [failedTargetName env name], false⟩ := by
  have hmtf := moveToFailed_self P.config env (P.config.inbox ++ [name])
  rw [pyName_append] at hmtf
  by_cases hre : env.repoExists = true
  · have hpf : exceptIsOk (P.parser.parse name) = false := by
      rcases h with h1 | h2
      · rw [hre] at h1; cases h1
      · exact h2
    cases hp : P.parser.parse name with
    | ok v => rw [hp] at hpf; cases hpf
    | error e =>
        simp only [FileProcessor.process, hre, if_true, pyName_append, hp]
        rw [hmtf]
  · simp only [FileProcessor.process]
    rw [if_neg hre, hmtf]

/-- C2 witness: the amended statement at a concrete missing-working-copy
run. -/
theorem C2_premove_failure_routed_to_failed_witness :
    FileProcessor.process
        ⟨⟨["u"], [FmtItem.field "module"], "Assets", [FmtItem.lit "m"]⟩,
         ⟨patABC⟩⟩
        ⟨false, true, .ok, .ok, true, false, false, "T0"⟩
        ["u", "inbox", "abc"] =
      ⟨false, ["u", "failed", "abc"], false⟩ :=
  C2_premove_failure_routed_to_failed
    ⟨⟨["u"], [FmtItem.field "module"], "Assets", [FmtItem.lit "m"]⟩, ⟨patABC⟩⟩
    ⟨false, true, .ok, .ok, true, false, false, "T0"⟩ "abc" (Or.inl rfl)

/-! ## Claim C6 -/

/-- C6: when the version-control stage fails with a git error after the
file was moved to the target, the orchestrator moves the file back to its
original inbox path when the inbox parent directory still exists, and
otherwise routes it (from the target) to the failed directory; in both
cases process reports failure. -/
theorem C6_compensating_recovery (P : FileProcessor) (env : GitEnv)
    (name : String) (parsed : ParsedFilename) (target : PyPath)
    (hrepo : env.repoExists = true)
    (hparse : P.parser.parse name = .ok parsed)
    (hgen : PathGenerator.generate ⟨P.config.path_template, P.config.asset_root⟩
        parsed P.config.repo = .ok target)
    (hstage : gitStage env P.config parsed target = .error StageErr.git) :
    P.process env (P.config.inbox ++ [name]) =
      ⟨false,
        if env.inboxParentExists then P.config.inbox ++ [name]
        else P.config.failed ++ [failedTargetName env (pyName target)],
        false⟩ := by
  simp only [FileProcessor.process, hrepo, if_true, pyName_append, hparse,
    hgen, hstage]
  unfold handleGitFailure
  by_cases hip : env.inboxParentExists = true
  · simp [hip]
  · simp [hip, moveToFailed_self]

/-- C6 witness: a concrete failing pull with the inbox still present
moves the file back to the inbox. -/
theorem C6_compensating_recovery_witness :
    FileProcessor.process
        ⟨⟨["w"], [FmtItem.field "module"], "Assets", [FmtItem.lit "m"]⟩,
         ⟨patABC⟩⟩
        ⟨true, false, .ok, .ok, true, true, false, "TS"⟩
        ["w", "inbox", "abc"] =
      ⟨false, ["w", "inbox", "abc"], false⟩ := by
  have h := C6_compensating_recovery
    ⟨⟨["w"], [FmtItem.field "module"], "Assets", [FmtItem.lit "m"]⟩, ⟨patABC⟩⟩
    ⟨true, false, .ok, .ok, true, true, false, "TS"⟩ "abc"
    ⟨"a", "b", "c", none, some "", "abc"⟩
    ["w", ".repo", "Assets", "a", "abc"] rfl rfl rfl rfl
  simpa using h

/-! ## Claim C1 -/

/-- A processor configured with a commit template using the documented
file_count placeholder. -/
def c1Processor : FileProcessor :=
  ⟨⟨["w"], [.field "module"], "Assets", [.field "file_count"]⟩, ⟨patABC⟩⟩

/-- An environment in which the working copy exists and every git
command succeeds. -/
def c1Env : GitEnv := ⟨true, true, .ok, .ok, true, true, false, "TS"⟩

/-- The terminal outcome of processing the inbox file abc under
c1Processor and c1Env. -/
def c1Out : Outcome := c1Processor.process c1Env ["w", "inbox", "abc"]

/-- C1 counterexample: with a commit template naming file_count, the
KeyError strikes after the move; the recovery move names the inbox path
where the file no longer is, so it fails silently, and the run terminates
with the file at the target path but not committed-and-pushed, not in the
inbox, and not in the failed directory: none of the three locations the
claim allows. -/
theorem C1_counterexample :
    c1Out.result = false ∧ c1Out.pushed = false ∧
    c1Out.fileAt = ["w", ".repo", "Assets", "a", "abc"] ∧
    c1Out.fileAt ≠ ["w", "inbox", "abc"] ∧
    List.isPrefixOf ["w", "failed"] c1Out.fileAt = false ∧
    List.isPrefixOf ["w", ".repo"] c1Out.fileAt = true := by
  exact ⟨rfl, rfl, rfl, by decide, by decide, by decide⟩

/-- The amended no-file-loss invariant on a terminal outcome: the file is
in exactly one of the original inbox location, the working copy, or the
failed directory, and the committed-and-pushed state coincides with the
reported success. -/
def locInvariant (c : PConfig) (fp : PyPath) (out : Outcome) : Prop :=
  ((out.fileAt = fp ∧ (∀ r, out.fileAt ≠ c.repo ++ r) ∧
      (∀ n2, out.fileAt ≠ c.failed ++ [n2]))
    ∨ ((∃ r, out.fileAt = c.repo ++ r) ∧ out.fileAt ≠ fp ∧
      (∀ n2, out.fileAt ≠ c.failed ++ [n2]))
    ∨ ((∃ n2, out.fileAt = c.failed ++ [n2]) ∧ out.fileAt ≠ fp ∧
      (∀ r, out.fileAt ≠ c.repo ++ r)))
  ∧ out.pushed = out.result
  ∧ (out.result = true → ∃ r, out.fileAt = c.repo ++ r)

/-- The invariant holds of a failure outcome in the failed directory. -/
theorem locInvariant_failedSink (c : PConfig) (name n2 : String) :
    locInvariant c (c.inbox ++ [name]) ⟨false, c.failed ++ [n2], false⟩ := by
  refine ⟨Or.inr (Or.inr ⟨⟨n2, rfl⟩, ?_, ?_⟩), rfl, fun h => nomatch h⟩
  · exact fun h => inbox_ne_failed c [name] [n2] h.symm
  · exact fun r h => repo_ne_failed c r [n2] h.symm

/-- The invariant holds of a failure outcome back at the inbox path. -/
theorem locInvariant_inbox (c : PConfig) (name : String) :
    locInvariant c (c.inbox ++ [name]) ⟨false, c.inbox ++ [name], false⟩ := by
  refine ⟨Or.inl ⟨rfl, ?_, ?_⟩, rfl, fun h => nomatch h⟩
  · exact fun r => inbox_ne_repo c [name] r
  · exact fun n2 => inbox_ne_failed c [name] [n2]

/-- The invariant holds of an outcome inside the working copy whose
pushed flag equals its result flag. -/
theorem locInvariant_repo (c : PConfig) (name : String) (r0 : PyPath)
    (res : Bool) :
    locInvariant c (c.inbox ++ [name]) ⟨res, c.repo ++ r0, res⟩ := by
  refine ⟨Or.inr (Or.inl ⟨⟨r0, rfl⟩, ?_, ?_⟩), rfl, fun _ => ⟨r0, rfl⟩⟩
  · exact fun h => inbox_ne_repo c [name] r0 h.symm
  · exact fun n2 h => repo_ne_failed c r0 [n2] h

/-- C1 (amended): every terminal outcome of processing a file that began
in the inbox leaves it in exactly one of: its original inbox location, a
path inside the working copy (the target path; committed-and-pushed
exactly when process reports success, and uncommitted when an unexpected
non-git error after the move defeats the recovery), or the failed
directory. -/
theorem C1_no_file_loss (P : FileProcessor) (env : GitEnv) (name : String)
    (fp : PyPath) (out : Outcome)
    (hfp : fp = P.config.inbox ++ [name])
    (hout : out = P.process env fp) :
    locInvariant P.config fp out := by
  subst hfp
  subst hout
  have hmtf := moveToFailed_self P.config env (P.config.inbox ++ [name])
  rw [pyName_append] at hmtf
  simp only [FileProcessor.process, pyName_append]
  split
  case isFalse hre =>
      rw [hmtf]
      exact locInvariant_failedSink P.config name (failedTargetName env name)
  case isTrue hre =>
  split
  case h_1 e hp =>
      rw [hmtf]
      exact locInvariant_failedSink P.config name (failedTargetName env name)
  case h_2 parsed hp =>
  split
  case h_1 e hg =>
      rw [hmtf]
      exact locInvariant_failedSink P.config name (failedTargetName env name)
  case h_2 target hg =>
  obtain ⟨r0, hr0⟩ := generate_shape _ parsed P.config.repo target hg
  split
  case h_1 u hs =>
      rw [hr0]
      exact locInvariant_repo P.config name r0 true
  case h_2 hs =>
      unfold handleGitFailure
      by_cases hip : env.inboxParentExists = true
      · rw [if_pos hip]
        exact locInvariant_inbox P.config name
      · rw [if_neg hip, moveToFailed_self]
        exact locInvariant_failedSink P.config name
          (failedTargetName env (pyName target))
  case h_3 hs =>
      unfold moveToFailed
      rw [if_neg (fun h => inbox_ne_repo P.config [name] r0 (h.trans hr0))]
      rw [hr0]
      exact locInvariant_repo P.config name r0 false

/-- C1 witness: the amended invariant evaluated on the concrete stranded
run of the counterexample. -/
theorem C1_no_file_loss_witness :
    locInvariant c1Processor.config ["w", "inbox", "abc"] c1Out :=
  C1_no_file_loss c1Processor c1Env "abc" ["w", "inbox", "abc"] c1Out rfl rfl

end AssetHandoffer
